import Mathlib

/-!
Shallow embedding of the listening-session tracker of `frontend` JavaScript
(the "Listen Live Audio Player" block and the diagnostic-check handler).
Timestamps are modelled in whole milliseconds (`Nat`); the JavaScript
comparison `((end - start) / 1000) < 0.1` is equivalent, on integral
millisecond timestamps, to `end - start < 100`.

Handlers are modelled as atomic state transformers returning the new state
together with an ordered list of externally visible effects.  The point where
an `async` handler suspends on an awaited `fetch` is recorded as the effect
`Effect.awaitNetwork`; a `fetch` that is issued but not awaited produces no
such marker after its `emitRecord`.  Purely cosmetic DOM updates (status
text, button visibility, the time display, progress bars) are not modelled;
user-facing error surfaces (`showError`, `alert`) are.
-/

namespace StreamCheckerWeb

/-- The JSON body POSTed to `API_BASE_URL/listening/log`
(`listening_time_seconds` is derived from the two timestamps). -/
structure LogData where
  stream_url : String
  start_timestamp : Nat
  end_timestamp : Nat
  action_type : String
deriving DecidableEq, Repr

/-- Listening time of a record in milliseconds
(`listening_time_seconds` times 1000). -/
def LogData.listeningTimeMs (d : LogData) : Nat :=
  d.end_timestamp - d.start_timestamp

/-- Delivery mode of a session record: `normal` is the plain awaited
`fetch`; `durable` is the fire-and-forget `fetch` with `keepalive: true`
used on page teardown. -/
inductive DeliveryMode where
  | normal
  | durable
deriving DecidableEq, Repr

/-- Externally visible actions performed by a handler, in program order. -/
inductive Effect where
  /-- A session record is handed to the network (`fetch` of the log body). -/
  | emitRecord (d : LogData) (mode : DeliveryMode)
  /-- The handler suspends, awaiting the response of the `fetch` it issued. -/
  | awaitNetwork
  /-- `streamPlayer.pause()` -/
  | cmdPause
  /-- `streamPlayer.currentTime = 0` -/
  | cmdSeekZero
  /-- `streamPlayer.play()` (also `audioPlayer.play()` in the restore path) -/
  | cmdPlay
  /-- `showError(msg)` in the player UI -/
  | showPlayerError (msg : String)
  /-- `alert(msg)` raised by the diagnostic-check form -/
  | uiAlert (msg : String)
  /-- the diagnostic `fetch` POST to `API_BASE_URL/streams/check` -/
  | checkRequest (url : String)
deriving DecidableEq, Repr

/-- The session records (with their delivery mode) contained in an effect
trace, in order. -/
def sessionEmissions : List Effect → List (LogData × DeliveryMode)
  | [] => []
  | Effect.emitRecord d m :: es => (d, m) :: sessionEmissions es
  | _ :: es => sessionEmissions es

/-- Combined mutable state: the tracker variables of the player closure
(`currentPlayingUrl`, `isPlayerInitialized`, `listeningStartTime`,
`currentStreamUrl`, `pauseTriggeredByButton`, `isPlaying`) together with the
observable state of the audio element (the Playback Primitive).
`none` stands for JavaScript `null` (and, for `playerSrc`, the empty
source). -/
structure AppState where
  currentPlayingUrl : Option String
  isPlayerInitialized : Bool
  listeningStartTime : Option Nat
  currentStreamUrl : Option String
  pauseTriggeredByButton : Bool
  isPlaying : Bool
  playerSrc : Option String
  playerPaused : Bool
  playerCurrentTime : Nat
  playerEnded : Bool
  playerVolume : Rat
  playerMuted : Bool
deriving DecidableEq, Repr

/-- State at page load: nothing tracked, player idle. -/
def initialState : AppState :=
  { currentPlayingUrl := none
    isPlayerInitialized := false
    listeningStartTime := none
    currentStreamUrl := none
    pauseTriggeredByButton := false
    isPlaying := false
    playerSrc := none
    playerPaused := true
    playerCurrentTime := 0
    playerEnded := false
    playerVolume := 1
    playerMuted := false }

/-- The tracker-owned portion of the state, as a tuple (used to state frame
properties). -/
def trackerView (s : AppState) : Option Nat × Option String × Option String × Bool :=
  (s.listeningStartTime, s.currentStreamUrl, s.currentPlayingUrl, s.pauseTriggeredByButton)

/-- Characters removed by JavaScript `String.prototype.trim`. -/
def jsWhitespace (c : Char) : Bool :=
  c = ' ' || c = '\t' || c = '\n' || c = '\r' || c = '\x0b' || c = '\x0c'

/-- JavaScript `String.prototype.trim`. -/
def jsTrim (s : String) : String :=
  ⟨((s.data.dropWhile jsWhitespace).reverse.dropWhile jsWhitespace).reverse⟩

/-- `logListeningSession(actionType, sync)` at current time `now` (ms).
Returns early with no effect when no session is being tracked; clears
`listeningStartTime` and emits nothing when the session is shorter than
0.1 s (100 ms); otherwise issues the log `fetch` — fire-and-forget with
`keepalive` when `sync`, awaited otherwise — and clears
`listeningStartTime`. -/
def logListeningSession (actionType : String) (sync : Bool) (now : Nat) (s : AppState) :
    AppState × List Effect :=
  match s.listeningStartTime, s.currentStreamUrl with
  | some start, some url =>
    let listeningTimeMs := now - start
    if listeningTimeMs < 100 then
      ({ s with listeningStartTime := none }, [])
    else
      let logData : LogData :=
        { stream_url := url
          start_timestamp := start
          end_timestamp := now
          action_type := actionType }
      if sync then
        ({ s with listeningStartTime := none },
          [Effect.emitRecord logData DeliveryMode.durable])
      else
        ({ s with listeningStartTime := none },
          [Effect.emitRecord logData DeliveryMode.normal, Effect.awaitNetwork])
  | _, _ => (s, [])

/-- The synchronous part of the `playBtn` click handler, up to issuing
`streamPlayer.play()`: trims the input, rejects a blank URL, reloads the
source if it differs from `currentPlayingUrl`, and starts tracking
listening time only when `listeningStartTime` is null. -/
def playBtnClick (input : String) (now : Nat) (s : AppState) : AppState × List Effect :=
  let url := jsTrim input
  if url = "" then
    (s, [Effect.showPlayerError "Please enter a stream URL first"])
  else
    let s1 :=
      if s.currentPlayingUrl = some url then s
      else { s with currentPlayingUrl := some url, playerSrc := some url,
                    isPlayerInitialized := true }
    let s2 :=
      match s1.listeningStartTime with
      | none => { s1 with listeningStartTime := some now, currentStreamUrl := some url }
      | some _ => s1
    (s2, [Effect.cmdPlay])

/-- The `.then` continuation of the play promise. -/
def playPromiseResolved (s : AppState) : AppState × List Effect :=
  ({ s with isPlaying := true }, [])

/-- The `.catch` continuation of the play promise: surfaces the error and
resets `listeningStartTime`, with no logging call. -/
def playPromiseRejected (s : AppState) : AppState × List Effect :=
  ({ s with listeningStartTime := none },
    [Effect.showPlayerError "Unable to play stream"])

/-- The `pauseBtn` click handler: pre-sets `pauseTriggeredByButton`, awaits
`logListeningSession('pause')`, then pauses the player. -/
def pauseBtnClick (now : Nat) (s : AppState) : AppState × List Effect :=
  let s0 := { s with pauseTriggeredByButton := true }
  let r := logListeningSession "pause" false now s0
  ({ r.1 with isPlaying := false, playerPaused := true }, r.2 ++ [Effect.cmdPause])

/-- The `stopBtn` click handler: awaits `logListeningSession('stop')`, then
pauses, rewinds, and clears the loaded-source bookkeeping. -/
def stopBtnClick (now : Nat) (s : AppState) : AppState × List Effect :=
  let r := logListeningSession "stop" false now s
  ({ r.1 with playerPaused := true, playerCurrentTime := 0, isPlaying := false,
              currentPlayingUrl := none, currentStreamUrl := none,
              isPlayerInitialized := false },
    r.2 ++ [Effect.cmdPause, Effect.cmdSeekZero])

/-- The native `playing` event listener: records the playing source and
starts tracking only if `listeningStartTime` is null and a source is
known. -/
def playingEvent (now : Nat) (s : AppState) : AppState × List Effect :=
  let s1 := { s with isPlaying := true, playerPaused := false }
  let s2 :=
    match s1.playerSrc with
    | some src => { s1 with currentPlayingUrl := some src, currentStreamUrl := some src,
                            isPlayerInitialized := true }
    | none => s1
  let s3 :=
    match s2.listeningStartTime, s2.currentStreamUrl with
    | none, some _ => { s2 with listeningStartTime := some now }
    | _, _ => s2
  (s3, [])

/-- The native `pause` event listener: logs only when the pause was not
triggered by the button and a session is being tracked, then clears the
button flag. -/
def pauseEvent (now : Nat) (s : AppState) : AppState × List Effect :=
  let r :=
    if s.pauseTriggeredByButton = false && s.listeningStartTime.isSome then
      logListeningSession "pause" false now s
    else (s, [])
  ({ r.1 with pauseTriggeredByButton := false, isPlaying := false, playerPaused := true },
    r.2)

/-- A run of consecutive native `pause` events at the given times. -/
def runPauseEvents : List Nat → AppState → AppState × List Effect
  | [], s => (s, [])
  | n :: ns, s =>
    let r := pauseEvent n s
    let rest := runPauseEvents ns r.1
    (rest.1, r.2 ++ rest.2)

/-- The native `ended` event listener. -/
def endedEvent (now : Nat) (s : AppState) : AppState × List Effect :=
  let r := logListeningSession "stop" false now s
  ({ r.1 with isPlaying := false, playerPaused := true, currentStreamUrl := none }, r.2)

/-- The user-facing message chosen from `streamPlayer.error.code`. -/
def mediaErrorMessage : Option Nat → String
  | some 1 => "Playback aborted"
  | some 2 => "Network error - check your connection"
  | some 3 => "Stream format not supported or corrupted"
  | some 4 => "Stream format not supported by browser"
  | some _ => "Unknown error occurred"
  | none => "Unable to play stream"

/-- The native `error` event listener. -/
def errorEvent (code : Option Nat) (now : Nat) (s : AppState) : AppState × List Effect :=
  let r :=
    if s.listeningStartTime.isSome then logListeningSession "stop" false now s
    else (s, [])
  ({ r.1 with isPlaying := false, currentStreamUrl := none },
    r.2 ++ [Effect.showPlayerError (mediaErrorMessage code)])

/-- The `beforeunload` listener: durable (`sync = true`) logging when a
session is being tracked. -/
def beforeunloadEvent (now : Nat) (s : AppState) : AppState × List Effect :=
  match s.listeningStartTime, s.currentStreamUrl with
  | some _, some _ => logListeningSession "stop" true now s
  | _, _ => (s, [])

/-- The `visibilitychange` listener: durable logging when the page becomes
hidden while a session is being tracked. -/
def visibilitychangeEvent (hidden : Bool) (now : Nat) (s : AppState) : AppState × List Effect :=
  if hidden then
    match s.listeningStartTime, s.currentStreamUrl with
    | some _, some _ => logListeningSession "pause" true now s
    | _, _ => (s, [])
  else (s, [])

/-- The snapshot of the audio element taken at the top of
`handleStreamCheck` (`wasPlaying`, `currentSrc`, `currentVolume`,
`wasMuted`; `currentTime` is captured but never used). -/
structure AudioSnapshot where
  wasPlaying : Bool
  currentSrc : Option String
  currentVolume : Rat
  wasMuted : Bool
deriving DecidableEq, Repr

/-- The checkbox state of the diagnostic-check form (`selectedTests`). -/
structure SelectedTests where
  connectivity : Bool
  stream_info : Bool
  metadata : Bool
  player_test : Bool
  audio_analysis : Bool
  ad_detection : Bool
deriving DecidableEq, Repr

/-- `Object.keys(selectedTests).length === 0` is false, i.e. at least one
test checkbox was checked. -/
def anyTestSelected (t : SelectedTests) : Bool :=
  t.connectivity || t.stream_info || t.metadata || t.player_test ||
    t.audio_analysis || t.ad_detection

/-- The DOM environment `handleStreamCheck` reads: which elements exist and
what the form inputs hold.  `adDurationValue = none` models a `parseInt`
that returned `NaN`. -/
structure CheckEnv where
  playerFound : Bool
  inputFound : Bool
  inputValue : String
  tests : SelectedTests
  adDurationInputFound : Bool
  adDurationValue : Option Int
  uiElementsFound : Bool
deriving DecidableEq, Repr

/-- `duration && duration >= 10 && duration <= 300` (with `NaN` and `0`
falsy). -/
def adDurationOk : Option Int → Bool
  | none => false
  | some d => d ≠ 0 && 10 ≤ d && d ≤ 300

/-- The synchronous part of `handleStreamCheck`, from the audio-state
snapshot through the validation early-returns, up to issuing the awaited
diagnostic `fetch`.  Returns the snapshot used later by the `finally`
block.  The success and error continuations of the `fetch` only touch the
results/status DOM and are not modelled. -/
def handleStreamCheckStart (env : CheckEnv) (s : AppState) :
    AppState × AudioSnapshot × List Effect :=
  let snap : AudioSnapshot :=
    if env.playerFound then
      { wasPlaying := !s.playerPaused && !s.playerEnded
        currentSrc := s.playerSrc
        currentVolume := s.playerVolume
        wasMuted := s.playerMuted }
    else
      { wasPlaying := false, currentSrc := none, currentVolume := 1, wasMuted := false }
  if !env.inputFound then (s, snap, [])
  else
    let url := jsTrim env.inputValue
    if url = "" then (s, snap, [Effect.uiAlert "Please enter a stream URL"])
    else if env.tests.ad_detection && env.adDurationInputFound &&
        !adDurationOk env.adDurationValue then
      (s, snap, [Effect.uiAlert "Ad detection duration must be between 10 and 300 seconds."])
    else if !anyTestSelected env.tests then
      (s, snap, [Effect.uiAlert "Please select at least one test to run."])
    else if !env.uiElementsFound then
      (s, snap, [Effect.uiAlert "Error: Page elements not loaded. Please refresh the page."])
    else
      (s, snap, [Effect.checkRequest url, Effect.awaitNetwork])

/-- `pat` occurs at the head of `hay` (character lists). -/
def charsStartWith : List Char → List Char → Bool
  | _, [] => true
  | [], _ :: _ => false
  | a :: as, b :: bs => a = b && charsStartWith as bs

/-- JavaScript `hay.includes(pat)`: `pat` occurs contiguously in `hay`. -/
def charsInclude : List Char → List Char → Bool
  | [], pat => charsStartWith [] pat
  | a :: t, pat => charsStartWith (a :: t) pat || charsInclude t pat

/-- `audioPlayer.src === currentSrc || audioPlayer.src === '' ||
!audioPlayer.src || (currentSrc &&
audioPlayer.src.includes(currentSrc.split('/').pop()))`. -/
def srcMatches (playerSrc snapSrc : Option String) : Bool :=
  playerSrc == snapSrc || playerSrc == none ||
    (match snapSrc, playerSrc with
      | some c, some p => charsInclude p.data ((c.splitOn "/").getLastD "").data
      | _, _ => false)

/-- The `finally` block of `handleStreamCheck`, run after the diagnostic
`fetch` settles, on the then-current state: restores volume and mute and
resumes playback if the player got paused meanwhile and its source still
matches the snapshot. -/
def handleStreamCheckFinally (audioPlayerFound : Bool) (snap : AudioSnapshot)
    (s : AppState) : AppState × List Effect :=
  if audioPlayerFound && snap.wasPlaying && snap.currentSrc.isSome then
    if srcMatches s.playerSrc snap.currentSrc then
      let s1 := { s with playerVolume := snap.currentVolume, playerMuted := snap.wasMuted }
      if s.playerPaused && snap.wasPlaying then (s1, [Effect.cmdPlay])
      else (s1, [])
    else (s, [])
  else (s, [])

/-- A concrete state with an active session on `http://a` started at t = 0 ms. -/
def activeStateA : AppState :=
  { initialState with
      listeningStartTime := some 0
      currentStreamUrl := some "http://a"
      currentPlayingUrl := some "http://a"
      playerSrc := some "http://a"
      playerPaused := false }

theorem sessionEmissions_append (a b : List Effect) :
    sessionEmissions (a ++ b) = sessionEmissions a ++ sessionEmissions b := by
  induction a with
  | nil => rfl
  | cons e es ih => cases e <;> simp [sessionEmissions, ih]

theorem runPauseEvents_no_session (ns : List Nat) (s : AppState)
    (h : s.listeningStartTime = none) :
    sessionEmissions (runPauseEvents ns s).2 = [] ∧
    (runPauseEvents ns s).1.listeningStartTime = none := by
  induction ns generalizing s with
  | nil => simpa [runPauseEvents, sessionEmissions] using h
  | cons n ns ih =>
    have hpe : pauseEvent n s =
        ({ s with pauseTriggeredByButton := false, isPlaying := false,
                  playerPaused := true }, []) := by
      simp [pauseEvent, h]
    have hnone : (pauseEvent n s).1.listeningStartTime = none := by rw [hpe]; exact h
    obtain ⟨hemit, hst⟩ := ih (pauseEvent n s).1 hnone
    refine ⟨?_, ?_⟩
    · simp only [runPauseEvents, sessionEmissions_append, hemit]
      rw [hpe]
      simp [sessionEmissions]
    · simpa [runPauseEvents] using hst

/-- C5: for every session close through `logListeningSession`, a record is
emitted iff the session duration `now − start` is at least 0.1 s (100 ms):
the emission list is empty below the threshold and is exactly the one
record of the session at or above it. -/
theorem c5_threshold_filter (s : AppState) (t now : Nat) (u a : String) (sync : Bool)
    (hstart : s.listeningStartTime = some t) (hurl : s.currentStreamUrl = some u) :
    sessionEmissions (logListeningSession a sync now s).2 =
      if now - t < 100 then []
      else [(⟨u, t, now, a⟩,
             if sync then DeliveryMode.durable else DeliveryMode.normal)] := by
  by_cases h : now - t < 100
  · simp [logListeningSession, hstart, hurl, h, sessionEmissions]
  · by_cases hs : sync <;>
      simp [logListeningSession, hstart, hurl, h, hs, sessionEmissions]

/-- Witness for C5: a session of exactly 0.1 s (100 ms) emits its one
record; the 0.05 s case is the same theorem's `if` taking its other
branch. -/
theorem c5_threshold_filter_witness :
    sessionEmissions (logListeningSession "pause" false 100
        { initialState with listeningStartTime := some 0,
                            currentStreamUrl := some "u" }).2 =
      [(⟨"u", 0, 100, "pause"⟩, DeliveryMode.normal)] := by
  have h := c5_threshold_filter
    { initialState with listeningStartTime := some 0, currentStreamUrl := some "u" }
    0 100 "u" "pause" false rfl rfl
  simpa using h

/-- C6: with a session active at `beforeunload` time (and its duration at
or above the 0.1 s threshold), the record is handed over in Durable mode
(`fetch` with `keepalive`), and the handler never suspends waiting for the
network (`awaitNetwork` does not occur). -/
theorem c6_unload_durable_delivery (s : AppState) (t now : Nat) (u : String)
    (hstart : s.listeningStartTime = some t) (hurl : s.currentStreamUrl = some u)
    (hthr : t + 100 ≤ now) :
    (beforeunloadEvent now s).2 =
      [Effect.emitRecord ⟨u, t, now, "stop"⟩ DeliveryMode.durable] ∧
    Effect.awaitNetwork ∉ (beforeunloadEvent now s).2 := by
  have h : ¬ (now - t < 100) := by omega
  constructor
  · simp [beforeunloadEvent, logListeningSession, hstart, hurl, h]
  · simp [beforeunloadEvent, logListeningSession, hstart, hurl, h]

/-- Witness for C6 at a concrete 5 s session ended by `beforeunload`. -/
theorem c6_unload_durable_delivery_witness :
    (beforeunloadEvent 5000 activeStateA).2 =
      [Effect.emitRecord ⟨"http://a", 0, 5000, "stop"⟩ DeliveryMode.durable] ∧
    Effect.awaitNetwork ∉ (beforeunloadEvent 5000 activeStateA).2 :=
  c6_unload_durable_delivery activeStateA 0 5000 "http://a" rfl rfl (by decide)

/-- C7: a play command whose trimmed URL equals the source already loaded
(`currentPlayingUrl`) while a session is tracked leaves the whole state
unchanged — no new session, no `startedAt` reset, no record emitted — and
only issues the play command to the Primitive. -/
theorem c7_same_source_play_noop (s : AppState) (input u : String) (t now : Nat)
    (htrim : jsTrim input = u) (hne : u ≠ "")
    (hcp : s.currentPlayingUrl = some u) (hst : s.listeningStartTime = some t) :
    playBtnClick input now s = (s, [Effect.cmdPlay]) := by
  simp [playBtnClick, htrim, hne, hcp, hst]

/-- Witness for C7: replaying `http://a` (with surrounding whitespace in the
input box) over the active `http://a` session changes nothing. -/
theorem c7_same_source_play_noop_witness :
    playBtnClick " http://a " 9999 activeStateA = (activeStateA, [Effect.cmdPlay]) :=
  c7_same_source_play_noop activeStateA " http://a " "http://a" 0 9999
    (by decide) (by decide) rfl rfl

/-- C8: a play command whose source is blank after trimming fails fast: the
state (in particular the tracker) is untouched, and the only effect is the
user-facing error — no Primitive call, no tracker signal, no emission. -/
theorem c8_blank_source_fails_fast (input : String) (now : Nat) (s : AppState)
    (h : jsTrim input = "") :
    playBtnClick input now s =
      (s, [Effect.showPlayerError "Please enter a stream URL first"]) := by
  simp [playBtnClick, h]

/-- Witness for C8 on a whitespace-only input. -/
theorem c8_blank_source_fails_fast_witness :
    playBtnClick "   " 0 initialState =
      (initialState, [Effect.showPlayerError "Please enter a stream URL first"]) :=
  c8_blank_source_fails_fast "   " 0 initialState (by decide)

/-- C1: closing an active session (threshold met) with the pause button
emits exactly one record over the button handler plus any number of
following native `pause` events: the button handler logs once and pre-sets
`pauseTriggeredByButton`, and the native handler emits nothing afterwards
(flag set on the first event, `listeningStartTime` already cleared on every
later one). -/
theorem c1_button_pause_single_record (s : AppState) (t0 n0 : Nat) (u : String)
    (ns : List Nat)
    (hstart : s.listeningStartTime = some t0) (hurl : s.currentStreamUrl = some u)
    (hthr : t0 + 100 ≤ n0) :
    (sessionEmissions ((pauseBtnClick n0 s).2 ++
        (runPauseEvents ns (pauseBtnClick n0 s).1).2)).length = 1 := by
  have hlt : ¬ (n0 - t0 < 100) := by omega
  have hbtn : sessionEmissions (pauseBtnClick n0 s).2 =
      [(⟨u, t0, n0, "pause"⟩, DeliveryMode.normal)] := by
    simp [pauseBtnClick, logListeningSession, hstart, hurl, hlt, sessionEmissions]
  have hnone : (pauseBtnClick n0 s).1.listeningStartTime = none := by
    simp [pauseBtnClick, logListeningSession, hstart, hurl, hlt]
  obtain ⟨hrest, -⟩ := runPauseEvents_no_session ns _ hnone
  rw [sessionEmissions_append, hbtn, hrest]
  rfl

/-- Witness for C1: pause button at 200 ms on a session started at 0 ms,
followed by three native pause events. -/
theorem c1_button_pause_single_record_witness :
    (sessionEmissions ((pauseBtnClick 200 activeStateA).2 ++
        (runPauseEvents [300, 400, 500] (pauseBtnClick 200 activeStateA).1).2)).length = 1 :=
  c1_button_pause_single_record activeStateA 0 200 "http://a" [300, 400, 500]
    rfl rfl (by decide)

/-- C9: the diagnostic-check action does not interfere with session
tracking: its synchronous part returns the state unchanged, its `finally`
block (run on whatever state holds when the check request settles) changes
at most the player volume and mute, and neither part emits a session
record — the tracker fields (`listeningStartTime`, `currentStreamUrl`,
`currentPlayingUrl`, `pauseTriggeredByButton`) are preserved in every
branch, so an `ACTIVE(A)` session stays `ACTIVE(A)` with its `startedAt`. -/
theorem c9_stream_check_noninterference (env : CheckEnv) (found : Bool)
    (snap : AudioSnapshot) (s s' : AppState) :
    (handleStreamCheckStart env s).1 = s ∧
    sessionEmissions (handleStreamCheckStart env s).2.2 = [] ∧
    trackerView (handleStreamCheckFinally found snap s').1 = trackerView s' ∧
    sessionEmissions (handleStreamCheckFinally found snap s').2 = [] := by
  have h1 : (handleStreamCheckStart env s).1 = s := by
    unfold handleStreamCheckStart
    dsimp only
    repeat' split
    all_goals rfl
  have h2 : sessionEmissions (handleStreamCheckStart env s).2.2 = [] := by
    unfold handleStreamCheckStart
    dsimp only
    repeat' split
    all_goals rfl
  have h3 : trackerView (handleStreamCheckFinally found snap s').1 = trackerView s' := by
    unfold handleStreamCheckFinally
    dsimp only
    repeat' split
    all_goals simp [trackerView]
  have h4 : sessionEmissions (handleStreamCheckFinally found snap s').2 = [] := by
    unfold handleStreamCheckFinally
    dsimp only
    repeat' split
    all_goals rfl
  exact ⟨h1, h2, h3, h4⟩

/-- C10: when the play promise is rejected, the just-started tracking is
discarded (`listeningStartTime` cleared) with no delivery; the play path
itself never emits a record; and a later play on the resulting idle state
starts a fresh session at the later click time. -/
theorem c10_play_rejection_discards_tracking (s : AppState) :
    (playPromiseRejected s).1.listeningStartTime = none ∧
    sessionEmissions (playPromiseRejected s).2 = [] ∧
    (∀ input t s0, sessionEmissions (playBtnClick input t s0).2 = []) ∧
    (∀ input t, jsTrim input ≠ "" →
      ((playBtnClick input t (playPromiseRejected s).1).1).listeningStartTime = some t) := by
  refine ⟨rfl, rfl, ?_, ?_⟩
  · intro input t s0
    by_cases h : jsTrim input = "" <;> simp [playBtnClick, h, sessionEmissions]
  · intro input t hne
    by_cases h : s.currentPlayingUrl = some (jsTrim input) <;>
      simp [playBtnClick, playPromiseRejected, hne, h]

/-- Witness for C10: a rejected play of `http://a` from the initial state,
then a successful play click at 60 ms. -/
theorem c10_play_rejection_discards_tracking_witness :
    (playPromiseRejected (playBtnClick "http://a" 0 initialState).1).1.listeningStartTime
        = none ∧
    ((playBtnClick "http://a" 60
        (playPromiseRejected (playBtnClick "http://a" 0 initialState).1).1).1).listeningStartTime
      = some 60 := by
  have h := c10_play_rejection_discards_tracking (playBtnClick "http://a" 0 initialState).1
  exact ⟨h.1, h.2.2.2 "http://a" 60 (by decide)⟩

/-- C2 counterexample: the claim says delivery never blocks its caller and
the pause command is never delayed by network I/O.  At a concrete active
session, the pause-button handler's effect trace is: emit the record in
Normal mode, suspend awaiting the network (`awaitNetwork`), and only then
issue `streamPlayer.pause()` — the Primitive pause is delayed behind the
awaited delivery, refuting the claim. -/
theorem c2_counterexample :
    (pauseBtnClick 200 activeStateA).2 =
      [Effect.emitRecord ⟨"http://a", 0, 200, "pause"⟩ DeliveryMode.normal,
       Effect.awaitNetwork, Effect.cmdPause] := by
  decide

/-- C2 amended: Durable-mode delivery (`sync = true`) never suspends the
caller, but Normal-mode delivery is awaited by the pause-button handler, so
when a record is emitted the network await strictly precedes the pause
command to the Playback Primitive. -/
theorem c2_amended_delivery_blocking (s : AppState) (t n : Nat) (u a : String) :
    Effect.awaitNetwork ∉ (logListeningSession a true n s).2 ∧
    (s.listeningStartTime = some t → s.currentStreamUrl = some u → t + 100 ≤ n →
      (pauseBtnClick n s).2 =
        [Effect.emitRecord ⟨u, t, n, "pause"⟩ DeliveryMode.normal,
         Effect.awaitNetwork, Effect.cmdPause]) := by
  constructor
  · cases hst : s.listeningStartTime with
    | none => simp [logListeningSession, hst]
    | some t0 =>
      cases hcu : s.currentStreamUrl with
      | none => simp [logListeningSession, hst, hcu]
      | some u0 =>
        by_cases h : n - t0 < 100 <;> simp [logListeningSession, hst, hcu, h]
  · intro hst hcu hthr
    have hlt : ¬ (n - t < 100) := by omega
    simp [pauseBtnClick, logListeningSession, hst, hcu, hlt]

/-- Witness for the amended C2 at the concrete 0.2 s session. -/
theorem c2_amended_delivery_blocking_witness :
    Effect.awaitNetwork ∉ (logListeningSession "pause" true 200 activeStateA).2 ∧
    (pauseBtnClick 200 activeStateA).2 =
      [Effect.emitRecord ⟨"http://a", 0, 200, "pause"⟩ DeliveryMode.normal,
       Effect.awaitNetwork, Effect.cmdPause] := by
  have h := c2_amended_delivery_blocking activeStateA 0 200 "http://a" "pause"
  exact ⟨h.1, h.2 rfl rfl (by decide)⟩

/-- C3 counterexample: after START(A) at t = 0, a play command for B at
t = 5000 ms emits nothing (the claim expects SessionRecord(A, 5 s)) and
leaves `listeningStartTime = 0` and `currentStreamUrl = "http://a"` (the
claim expects the tracker ACTIVE(B) started at the switch). -/
theorem c3_counterexample :
    sessionEmissions
        (playBtnClick "http://b" 5000 (playBtnClick "http://a" 0 initialState).1).2 = [] ∧
    ((playBtnClick "http://b" 5000
        (playBtnClick "http://a" 0 initialState).1).1).listeningStartTime = some 0 ∧
    ((playBtnClick "http://b" 5000
        (playBtnClick "http://a" 0 initialState).1).1).currentStreamUrl = some "http://a" := by
  decide

/-- C3 amended: switching StreamSource while ACTIVE does not close the
prior session: the play handler reloads the Primitive with the new source
but emits no record and keeps the old `startedAt` and the old
`currentStreamUrl`; only when the new source's `playing` event arrives is
`currentStreamUrl` switched to the new source — still with the old
`startedAt`, so durations are merged across sources rather than split. -/
theorem c3_amended_switch_keeps_session (s : AppState) (t now now2 : Nat)
    (a input b : String)
    (htrim : jsTrim input = b) (hne : b ≠ "") (hab : a ≠ b)
    (hst : s.listeningStartTime = some t) (hcu : s.currentStreamUrl = some a)
    (hcp : s.currentPlayingUrl = some a) :
    sessionEmissions (playBtnClick input now s).2 = [] ∧
    ((playBtnClick input now s).1).listeningStartTime = some t ∧
    ((playBtnClick input now s).1).currentStreamUrl = some a ∧
    ((playBtnClick input now s).1).currentPlayingUrl = some b ∧
    ((playBtnClick input now s).1).playerSrc = some b ∧
    ((playingEvent now2 (playBtnClick input now s).1).1).currentStreamUrl = some b ∧
    ((playingEvent now2 (playBtnClick input now s).1).1).listeningStartTime = some t := by
  have hne2 : ¬ (s.currentPlayingUrl = some b) := by
    rw [hcp]
    simp [hab]
  refine ⟨?_, ?_, ?_, ?_, ?_, ?_, ?_⟩ <;>
    simp [playBtnClick, playingEvent, htrim, hne, hne2, hab, hst, hcu, hcp,
      sessionEmissions]

/-- Witness for the amended C3: START(`http://a`) at 0, play `http://b` at
5000 ms, its `playing` event at 5100 ms. -/
theorem c3_amended_switch_keeps_session_witness :
    sessionEmissions (playBtnClick "http://b" 5000 activeStateA).2 = [] ∧
    ((playBtnClick "http://b" 5000 activeStateA).1).listeningStartTime = some 0 ∧
    ((playBtnClick "http://b" 5000 activeStateA).1).currentStreamUrl = some "http://a" ∧
    ((playBtnClick "http://b" 5000 activeStateA).1).currentPlayingUrl = some "http://b" ∧
    ((playBtnClick "http://b" 5000 activeStateA).1).playerSrc = some "http://b" ∧
    ((playingEvent 5100 (playBtnClick "http://b" 5000 activeStateA).1).1).currentStreamUrl
        = some "http://b" ∧
    ((playingEvent 5100 (playBtnClick "http://b" 5000 activeStateA).1).1).listeningStartTime
        = some 0 :=
  c3_amended_switch_keeps_session activeStateA 0 5000 5100 "http://a" "http://b" "http://b"
    (by decide) (by decide) (by decide) rfl rfl rfl

/-- C4 counterexample: in the claim's scenario — play command at t = 0,
`playing` event at t = 200 ms, pause button at t = 10200 ms — tracking
starts at the click (`listeningStartTime = 0`, not 200), and the single
emitted record spans 0..10200 ms, i.e. 10.2 s rather than the claimed
approximately 10.0 s. -/
theorem c4_counterexample :
    ((playBtnClick "http://x/stream.mp3" 0 initialState).1).listeningStartTime = some 0 ∧
    sessionEmissions (pauseBtnClick 10200
        (playingEvent 200
          (playPromiseResolved
            (playBtnClick "http://x/stream.mp3" 0 initialState).1).1).1).2 =
      [(⟨"http://x/stream.mp3", 0, 10200, "pause"⟩, DeliveryMode.normal)] := by
  decide

/-- C4 amended: the tracker's `startedAt` is set at the play command
(click) time whenever no session is tracked; the `playing` event never
resets an already-set `startedAt` (it only starts tracking when none is
set), so in the scenario the emitted record's duration is click-to-pause
(10.2 s), not playing-to-pause. -/
theorem c4_amended_start_at_click (s : AppState) (input u : String) (t now now2 : Nat)
    (htrim : jsTrim input = u) (hne : u ≠ "") (hidle : s.listeningStartTime = none) :
    ((playBtnClick input now s).1).listeningStartTime = some now ∧
    (∀ s2 : AppState, s2.listeningStartTime = some t →
      ((playingEvent now2 s2).1).listeningStartTime = some t) := by
  constructor
  · by_cases h : s.currentPlayingUrl = some u <;>
      simp [playBtnClick, htrim, hne, h, hidle]
  · intro s2 hs2
    cases hsrc : s2.playerSrc <;> simp [playingEvent, hsrc, hs2]

/-- Witness for the amended C4: play click at 0 starts tracking at 0, and a
`playing` event at 200 ms leaves a session started at 0 untouched. -/
theorem c4_amended_start_at_click_witness :
    ((playBtnClick "http://x/stream.mp3" 0 initialState).1).listeningStartTime = some 0 ∧
    ((playingEvent 200
        (playBtnClick "http://x/stream.mp3" 0 initialState).1).1).listeningStartTime
      = some 0 := by
  have h := c4_amended_start_at_click initialState "http://x/stream.mp3"
    "http://x/stream.mp3" 0 0 200 (by decide) (by decide) rfl
  exact ⟨h.1, h.2 (playBtnClick "http://x/stream.mp3" 0 initialState).1 (by decide)⟩

end StreamCheckerWeb
